import Mathlib

/-!
Verification development for the bilbopass transit platform.

Shallow embedding of the subsystems the claims concern:
* the delay-compensation service (`internal/core/usecases/compensation_service.go`),
* the Temporal compensation workflow and its activities (`workflows` package),
* the real-time poller delay detection (`cmd/realtime/main.go`),
* the NATS JetStream publisher stream configuration,
* the journey planner (`internal/adapters/postgres/journey_repo.go`,
  `JourneyService.PlanJourney` in `internal/core/usecases`),
* the static GTFS ingestor stop-times table loop (`cmd/ingestor/main.go`).

Effectful Go code is embedded by passing the outcomes of external calls
(repository and notifier results) as explicit parameters, and database
state as an explicit list of rows.  SQL queries with ORDER BY/LIMIT are
embedded relationally: the result set is any length-limited prefix of a
permutation of the candidate rows that is sorted by the ORDER BY key,
since the database guarantees no particular order among key-ties.
-/

namespace Bilbopass

/-! ## Compensation data model (migrations/002_core_tables.sql, domain package) -/

/-- Affiliate row, reduced to the fields the compensation path reads. -/
structure Affiliate where
  id : String
  name : String
deriving Repr, DecidableEq

/-- Compensation row as built by `IssueCompensation`.  Timestamps are
modelled as integer seconds. -/
structure Compensation where
  userId : String
  delayEventId : String
  affiliateId : String
  code : String
  issuedAt : Int
  expiresAt : Int
deriving Repr, DecidableEq

/-- Outcomes of the external calls `IssueCompensation` makes, passed in
explicitly: the affiliate lookup, the random code generation, the
compensation-row insert, the delay-event mark, and the push send. -/
structure CompensationDeps where
  findNearby : Except String (List Affiliate)
  genCode : Except String String
  createOk : Bool
  markOk : Bool
  pushOk : Bool
deriving Repr

/-- Result of one `IssueCompensation` call: the returned value and the
compensation rows after the call. -/
structure IssueResult where
  result : Except String Compensation
  rows : List Compensation
deriving Repr

/-- Embedding of `CompensationService.IssueCompensation`
(compensation_service.go lines 38-81).  The source finds nearby
affiliates, fails when the list is empty, generates a code, builds the
row with `issued_at = now` and `expires_at = now + 72h`, inserts it,
then marks the delay event and sends the push with both errors
discarded (`_ = err`).  It never consults existing rows. -/
def IssueCompensation (deps : CompensationDeps) (now : Int)
    (userId delayEventId : String) (rows : List Compensation) : IssueResult :=
  match deps.findNearby with
  | .error e => { result := .error ("find affiliates: " ++ e), rows := rows }
  | .ok [] => { result := .error "no affiliates found near stop", rows := rows }
  | .ok (affiliate :: _) =>
    match deps.genCode with
    | .error e => { result := .error ("generate code: " ++ e), rows := rows }
    | .ok code =>
      let comp : Compensation :=
        { userId := userId, delayEventId := delayEventId,
          affiliateId := affiliate.id, code := code,
          issuedAt := now, expiresAt := now + 72 * 3600 }
      if deps.createOk then
        -- markCompensated and SendPush are best-effort: the source drops
        -- both results, so deps.markOk and deps.pushOk cannot change the
        -- outcome.
        { result := .ok comp, rows := rows ++ [comp] }
      else
        { result := .error "create compensation", rows := rows }

/-- Embedding of the `GenerateCouponCode` activity (workflows package,
part_000 lines 44-54): it delegates to `IssueCompensation` with a
`DelayEvent` holding only the id and coordinates `(0, 0)`, and returns
the code of the created compensation. -/
def GenerateCouponCode (deps : CompensationDeps) (now : Int)
    (userId delayEventId : String) (rows : List Compensation) :
    Except String String × List Compensation :=
  let r := IssueCompensation deps now userId delayEventId rows
  (r.result.map (fun c => c.code), r.rows)

/-- Rows recorded for a given delay event id. -/
def rowsForDelayEvent (rows : List Compensation) (delayEventId : String) :
    List Compensation :=
  rows.filter (fun c => c.delayEventId == delayEventId)

/-! ## Compensation workflow (part_001, `CompensationWorkflow`) -/

/-- Post-retry outcomes of the five workflow activities, as resolved by
the workflow engine. -/
structure WorkflowOutcomes where
  findAffiliate : Except String String
  getName : Except String String
  generateCoupon : Except String String
  sendPush : Except String Unit
  deleteCoupon : Except String Unit
deriving Repr

/-- Observable trace of one workflow execution: the workflow result and
the coupon code passed to `DeleteCoupon`, when that compensation step ran. -/
structure WorkflowTrace where
  result : Except String Unit
  deletedCoupon : Option String
deriving Repr

/-- Embedding of `CompensationWorkflow` (part_001 lines 23-62).
`FindNearestAffiliate` failure and `GenerateCouponCode` failure return
the error directly; the `GetAffiliateName` error is discarded; a
`SendPushNotification` failure triggers `DeleteCoupon(code)` whose own
result is discarded (`_ =`), and the original push error is returned. -/
def CompensationWorkflow (o : WorkflowOutcomes) : WorkflowTrace :=
  match o.findAffiliate with
  | .error e => { result := .error e, deletedCoupon := none }
  | .ok _ =>
    match o.generateCoupon with
    | .error e => { result := .error e, deletedCoupon := none }
    | .ok code =>
      match o.sendPush with
      | .ok _ => { result := .ok (), deletedCoupon := none }
      | .error e => { result := .error e, deletedCoupon := some code }

/-! ## Real-time poller: trip updates and delay detection
(cmd/realtime/main.go, `pollTripUpdates` lines 320-369) -/

/-- GTFS-Realtime `StopTimeEvent`, reduced to the `delay` field the
poller reads.  `none` models a nil `Delay` pointer. -/
structure StopTimeEvent where
  delay : Option Int
deriving Repr, DecidableEq

/-- GTFS-Realtime `StopTimeUpdate`: `none` for `arrival`/`departure`
models a nil message pointer. -/
structure StopTimeUpdate where
  stopId : String
  arrival : Option StopTimeEvent
  departure : Option StopTimeEvent
deriving Repr, DecidableEq

/-- GTFS-Realtime `TripUpdate` with its trip descriptor fields and
stop-time updates.  `delay = none` models an unset `Delay` field, whose
proto getter yields 0. -/
structure TripUpdate where
  tripId : String
  routeId : String
  delay : Option Int
  stopTimeUpdates : List StopTimeUpdate
deriving Repr, DecidableEq

/-- Feed entity: `tripUpdate = none` models `entity.GetTripUpdate() == nil`,
which the poller skips. -/
structure FeedEntity where
  tripUpdate : Option TripUpdate
deriving Repr, DecidableEq

/-- Per-stop delay computation from the poller loop: arrival delay when
the arrival event exists and its delay is set, else departure delay when
set, else the overall trip-level delay. -/
def stopDelay (overallDelay : Int) (stu : StopTimeUpdate) : Int :=
  match stu.arrival.bind (fun e => e.delay) with
  | some d => d
  | none =>
    match stu.departure.bind (fun e => e.delay) with
    | some d => d
    | none => overallDelay

/-- JSON payload published for a significant delay. -/
structure DelayMessage where
  agency : String
  tripId : String
  stopId : String
  delaySec : Int
  routeId : String
deriving Repr, DecidableEq

/-- One `nc.Publish(subject, data)` call. -/
structure PublishedMsg where
  subject : String
  msg : DelayMessage
deriving Repr, DecidableEq

/-- Embedding of the publish effects of `pollTripUpdates`: entities with
a nil trip update are skipped; for each stop-time update whose computed
delay exceeds 180 seconds a message is published to the constant subject
`transit.delays.detected`. -/
def pollTripUpdates (agencySlug : String) (entities : List FeedEntity) :
    List PublishedMsg :=
  (entities.filterMap (fun e => e.tripUpdate)).flatMap fun tu =>
    tu.stopTimeUpdates.filterMap fun stu =>
      let d := stopDelay (tu.delay.getD 0) stu
      if 180 < d then
        some { subject := "transit.delays.detected",
               msg := { agency := agencySlug, tripId := tu.tripId,
                        stopId := stu.stopId, delaySec := d,
                        routeId := tu.routeId } }
      else none

/-! ## NATS subject matching and publisher stream configuration
(part_010, `NewPublisher` lines 146-168) -/

/-- Splits a character list at a separator, as `strings.Split` and NATS
subject tokenization do. -/
def splitOnSep (sep : Char) : List Char → List Char → List (List Char)
  | [], acc => [acc.reverse]
  | c :: cs, acc =>
    if c = sep then acc.reverse :: splitOnSep sep cs []
    else splitOnSep sep cs (c :: acc)

/-- Dot-separated tokens of a NATS subject or pattern. -/
def natsTokens (s : String) : List (List Char) :=
  splitOnSep '.' s.data []

/-- NATS token matching: `*` matches exactly one token, a trailing `>`
matches one or more remaining tokens, any other token matches literally.
Modelled from the documented NATS subject semantics (the matcher itself
lives in the NATS server, outside this repository). -/
def natsTokenMatch : List (List Char) → List (List Char) → Bool
  | [], [] => true
  | [['>']], _ :: _ => true
  | p :: ps, t :: ts => (p = ['*'] || p = t) && natsTokenMatch ps ts
  | _, _ => false

/-- Whether a NATS subject-filter pattern matches a concrete subject. -/
def subjectMatches (pattern subject : String) : Bool :=
  natsTokenMatch (natsTokens pattern) (natsTokens subject)

/-- Subject filters of the three streams `NewPublisher` configures:
VEHICLE_POSITIONS, TRANSIT_ALERTS, TRANSIT_DELAYS. -/
def streamSubjectPatterns : List String :=
  ["transit.vehicle.>", "transit.alerts.>", "transit.delay.>"]

/-! ## Journey planner
(internal/adapters/postgres/journey_repo.go `FindJourneys`,
internal/core/usecases `JourneyService.PlanJourney`)

The two SQL queries are embedded over an explicit list of `stop_times`
and `trips` rows.  Joins to `stops` and `routes` only resolve display
columns (names, colors, headsigns) keyed by ids already present on the
joined rows, so under foreign-key integrity they do not change the
result multiset; the embedding carries the ids and elides the display
columns.  Time offsets (`arrival_time`, `departure_time` intervals) are
integer seconds of the service day. -/

/-- Row of the `stop_times` table as the planner queries read it. -/
structure StopTimeRow where
  tripId : String
  stopId : String
  arrivalTime : Int
  departureTime : Int
  stopSeq : Int
deriving Repr, DecidableEq

/-- Row of the `trips` table, reduced to the join keys. -/
structure TripRow where
  id : String
  routeId : String
deriving Repr, DecidableEq

/-- Schedule tables visible to `FindJourneys`. -/
structure ScheduleDB where
  stopTimes : List StopTimeRow
  trips : List TripRow
deriving Repr

/-- Projection of one Phase-1 result row (the direct-journey query). -/
structure DirectRow where
  dep : Int
  arr : Int
  tripId : String
  routeId : String
  fromStop : String
  toStop : String
deriving Repr, DecidableEq

/-- Candidate rows of the Phase-1 query: self-join of `stop_times` on
the trip, joined to `trips`, with the WHERE clause
`st_from.stop_id = $1 AND st_to.stop_id = $2 AND
st_from.stop_sequence < st_to.stop_sequence AND
st_from.departure_time >= make_interval(secs => $3)`. -/
def directCandidates (db : ScheduleDB) (fromStopId toStopId : String)
    (tod : Int) : List DirectRow :=
  db.stopTimes.flatMap fun stf =>
    (db.stopTimes.filter fun stt =>
      stf.tripId == stt.tripId && stf.stopId == fromStopId &&
      stt.stopId == toStopId && stf.stopSeq < stt.stopSeq &&
      tod ≤ stf.departureTime).flatMap fun stt =>
      (db.trips.filter fun t => t.id == stf.tripId).map fun t =>
        { dep := stf.departureTime, arr := stt.arrivalTime,
          tripId := t.id, routeId := t.routeId,
          fromStop := stf.stopId, toStop := stt.stopId }

/-- Row of the `leg1`/`leg2` CTEs of the Phase-2 query. -/
structure LegRow where
  fromStop : String
  toStop : String
  dep : Int
  arr : Int
  tripId : String
deriving Repr, DecidableEq

/-- The `leg1` CTE: pairs on one trip leaving the origin stop at or
after the requested time of day. -/
def leg1Rows (db : ScheduleDB) (fromStopId : String) (tod : Int) :
    List LegRow :=
  db.stopTimes.flatMap fun stf =>
    (db.stopTimes.filter fun stt =>
      stf.tripId == stt.tripId && stf.stopSeq < stt.stopSeq &&
      stf.stopId == fromStopId && tod ≤ stf.departureTime).map fun stt =>
      { fromStop := stf.stopId, toStop := stt.stopId,
        dep := stf.departureTime, arr := stt.arrivalTime,
        tripId := stf.tripId }

/-- The `leg2` CTE: pairs on one trip arriving at the destination stop. -/
def leg2Rows (db : ScheduleDB) (toStopId : String) : List LegRow :=
  db.stopTimes.flatMap fun stf =>
    (db.stopTimes.filter fun stt =>
      stf.tripId == stt.tripId && stf.stopSeq < stt.stopSeq &&
      stt.stopId == toStopId).map fun stt =>
      { fromStop := stf.stopId, toStop := stt.stopId,
        dep := stf.departureTime, arr := stt.arrivalTime,
        tripId := stf.tripId }

/-- Projection of one Phase-2 result row (the one-transfer query). -/
structure TransferRow where
  dep1 : Int
  arr1 : Int
  dep2 : Int
  arr2 : Int
  fromStop : String
  xferStop : String
  toStop : String
  route1 : String
  route2 : String
deriving Repr, DecidableEq

/-- Candidate rows of the Phase-2 query: join `leg1` to `leg2` on the
transfer stop with the window
`l2.dep2 >= l1.arr1 + 2 minutes AND l2.dep2 <= l1.arr1 + 30 minutes`,
join both trips to resolve their routes, and require `r1.id != r2.id`. -/
def transferCandidates (db : ScheduleDB) (fromStopId toStopId : String)
    (tod : Int) : List TransferRow :=
  (leg1Rows db fromStopId tod).flatMap fun l1 =>
    ((leg2Rows db toStopId).filter fun l2 =>
      l1.toStop == l2.fromStop && l1.arr + 120 ≤ l2.dep &&
      l2.dep ≤ l1.arr + 1800).flatMap fun l2 =>
      (db.trips.filter fun t1 => t1.id == l1.tripId).flatMap fun t1 =>
        ((db.trips.filter fun t2 => t2.id == l2.tripId).filter fun t2 =>
          t1.routeId != t2.routeId).map fun t2 =>
          { dep1 := l1.dep, arr1 := l1.arr, dep2 := l2.dep, arr2 := l2.arr,
            fromStop := l1.fromStop, xferStop := l1.toStop,
            toStop := l2.toStop, route1 := t1.routeId, route2 := t2.routeId }

/-- Journey leg as the scan loops build it; `dep`/`arr` are absolute
wall-clock seconds (`today.Add(offset)`). -/
structure Leg where
  routeId : String
  fromStop : String
  toStop : String
  dep : Int
  arr : Int
deriving Repr, DecidableEq

/-- Journey value as returned by `FindJourneys`. -/
structure Journey where
  legs : List Leg
  duration : Int
  departureTime : Int
  arrivalTime : Int
  transfers : Nat
deriving Repr, DecidableEq

/-- Journey built from one Phase-1 row: one leg, `transfers = 0`,
`duration = arr - dep`, wall-clocks `today + offset`. -/
def mkDirectJourney (today : Int) (row : DirectRow) : Journey :=
  { legs := [{ routeId := row.routeId, fromStop := row.fromStop,
               toStop := row.toStop, dep := today + row.dep,
               arr := today + row.arr }],
    duration := row.arr - row.dep,
    departureTime := today + row.dep,
    arrivalTime := today + row.arr,
    transfers := 0 }

/-- Journey built from one Phase-2 row: two legs, `transfers = 1`,
`duration = arr2 - dep1`. -/
def mkTransferJourney (today : Int) (row : TransferRow) : Journey :=
  { legs := [{ routeId := row.route1, fromStop := row.fromStop,
               toStop := row.xferStop, dep := today + row.dep1,
               arr := today + row.arr1 },
             { routeId := row.route2, fromStop := row.xferStop,
               toStop := row.toStop, dep := today + row.dep2,
               arr := today + row.arr2 }],
    duration := row.arr2 - row.dep1,
    departureTime := today + row.dep1,
    arrivalTime := today + row.arr2,
    transfers := 1 }

/-- Limit normalization at the top of `FindJourneys`:
`if limit <= 0 || limit > 20 { limit = 5 }`. -/
def effectiveLimit (limit : Int) : Int :=
  if limit ≤ 0 || 20 < limit then 5 else limit

/-- Result-set semantics of an ORDER BY/LIMIT query: the output is the
`lim`-prefix of some permutation of the candidate rows that is sorted by
the ORDER BY key.  The database promises no particular order among rows
with equal keys, so every such prefix is an admissible result. -/
def QueryResult {α : Type} (key : α → Int) (cands : List α) (lim : Nat)
    (out : List α) : Prop :=
  ∃ full, List.Perm full cands ∧
    List.Sorted (fun a b => key a ≤ key b) full ∧ out = full.take lim

/-- Admissible result sets of the Phase-1 (direct) query, ordered by
`st_from.departure_time`, limited to `lim`. -/
def phase1Rel (db : ScheduleDB) (fromStopId toStopId : String) (tod : Int)
    (lim : Nat) (rows : List DirectRow) : Prop :=
  QueryResult (fun r => r.dep) (directCandidates db fromStopId toStopId tod)
    lim rows

/-- Admissible result sets of the Phase-2 (one-transfer) query, ordered
by `l2.arr2 - l1.dep1`, limited to `lim`. -/
def phase2Rel (db : ScheduleDB) (fromStopId toStopId : String) (tod : Int)
    (lim : Nat) (rows : List TransferRow) : Prop :=
  QueryResult (fun r => r.arr2 - r.dep1)
    (transferCandidates db fromStopId toStopId tod) lim rows

/-- Admissible outputs of `FindJourneys` on the success path: direct
journeys first; the transfer phase runs only when `maxTransfers >= 1`
and the direct results underfill the effective limit, with
`remaining = limit - len(journeys)`. -/
def FindJourneysRel (db : ScheduleDB) (fromStopId toStopId : String)
    (tod today : Int) (maxTransfers limit : Int) (out : List Journey) : Prop :=
  let lim := (effectiveLimit limit).toNat
  ∃ directRows, phase1Rel db fromStopId toStopId tod lim directRows ∧
    (if 1 ≤ maxTransfers ∧ directRows.length < lim then
      ∃ xferRows, phase2Rel db fromStopId toStopId tod
          (lim - directRows.length) xferRows ∧
        out = directRows.map (mkDirectJourney today) ++
              xferRows.map (mkTransferJourney today)
    else out = directRows.map (mkDirectJourney today))

/-- Embedding of `JourneyService.PlanJourney` argument handling: empty
or equal stop ids are rejected; `maxTransfers` outside `[0, 2]` becomes
1; the repository is always invoked with the fixed limit 10.  The
returned pair is `(maxTransfers, limit)` as passed to `FindJourneys`. -/
def PlanJourneyArgs (fromStopId toStopId : String) (maxTransfers : Int) :
    Except String (Int × Int) :=
  if fromStopId = "" ∨ toStopId = "" then
    .error "from and to stop IDs are required"
  else if fromStopId = toStopId then
    .error "from and to stops must be different"
  else
    .ok ((if maxTransfers < 0 ∨ 2 < maxTransfers then 1 else maxTransfers), 10)

/-! ## Static ingestor: stop-times table loop
(cmd/ingestor/main.go, `processStopTimes` lines 409-480 and
`parseGTFSTime` lines 617-627) -/

/-- Whether every character is a decimal digit. -/
def allDigits (cs : List Char) : Bool :=
  cs.all (fun c => c.isDigit)

/-- Value of a digit string. -/
def digitsToInt (cs : List Char) : Int :=
  cs.foldl (fun a c => a * 10 + ((c.toNat : Int) - 48)) 0

/-- Whether `strconv.Atoi` accepts the string: an optional sign followed
by at least one digit, digits only. -/
def goIntSyntax (cs : List Char) : Bool :=
  match cs with
  | [] => false
  | '+' :: rest => !rest.isEmpty && allDigits rest
  | '-' :: rest => !rest.isEmpty && allDigits rest
  | _ => allDigits cs

/-- The `n, _ := strconv.Atoi(s)` idiom used throughout the ingestor:
the parsed value on valid syntax, and the discarded-error zero value
otherwise. -/
def goAtoi (cs : List Char) : Int :=
  if goIntSyntax cs then
    match cs with
    | '+' :: rest => digitsToInt rest
    | '-' :: rest => -(digitsToInt rest)
    | _ => digitsToInt cs
  else 0

/-- The `strings.TrimSpace` both-ends whitespace trim. -/
def goTrim (cs : List Char) : List Char :=
  ((cs.dropWhile Char.isWhitespace).reverse.dropWhile Char.isWhitespace).reverse

/-- Embedding of `parseGTFSTime`: trim, split on a colon, require
exactly three parts (else 0), convert each with the discarded-error
`Atoi`, and combine to seconds.  Hours at or above 24 are permitted by
construction. -/
def parseGTFSTime (s : String) : Int :=
  match splitOnSep ':' (goTrim s.data) [] with
  | [h, m, sec] => goAtoi h * 3600 + goAtoi m * 60 + goAtoi sec
  | _ => 0

/-- Fields of one `stop_times.txt` CSV record, read by header name.  The
CSV reader guarantees a non-error record has as many fields as the
header, so named access embeds `record[cols[...]]`. -/
structure StopTimeRecord where
  tripId : String
  stopId : String
  arrivalTime : String
  departureTime : String
  stopSequence : String
  pickupType : String
  dropOffType : String
deriving Repr, DecidableEq

/-- One `reader.Read()` outcome inside the row loop: a non-EOF error
(short or malformed record) or a complete record. -/
inductive CsvRow where
  | readError : CsvRow
  | record : StopTimeRecord → CsvRow
deriving Repr, DecidableEq

/-- Parameters of one queued `INSERT INTO stop_times` statement. -/
structure StopTimeInsert where
  tripId : String
  stopId : String
  arrival : Int
  departure : Int
  stopSeq : Int
  pickupType : Int
  dropOffType : Int
deriving Repr, DecidableEq

/-- The insert queued for one record: times via `parseGTFSTime`, the
numeric fields via the discarded-error `Atoi`. -/
def stopTimeInsertOf (r : StopTimeRecord) : StopTimeInsert :=
  { tripId := r.tripId, stopId := r.stopId,
    arrival := parseGTFSTime r.arrivalTime,
    departure := parseGTFSTime r.departureTime,
    stopSeq := goAtoi r.stopSequence.data,
    pickupType := goAtoi r.pickupType.data,
    dropOffType := goAtoi r.dropOffType.data }

/-- Embedding of the `processStopTimes` row loop: a read error skips the
row (`continue`) and the loop proceeds; every complete record queues
exactly one insert.  Batch flush errors are logged and ingestion
continues, so they do not affect which inserts are queued. -/
def processStopTimes (rows : List CsvRow) : List StopTimeInsert :=
  rows.filterMap fun row =>
    match row with
    | .readError => none
    | .record r => some (stopTimeInsertOf r)

/-! ## Theorems -/

/-- C1: the claim asserts that retries of the coupon-issuance step never
create a second compensation row for a delay event, the step returning
the existing code instead.  The source does the opposite: this theorem
replays `GenerateCouponCode` for delay event `D1` after a first
successful attempt and evaluates the code to two persisted rows for
`D1`, with the second fresh code returned rather than the first. -/
theorem GenerateCouponCode_replay_duplicates :
    (rowsForDelayEvent
      (GenerateCouponCode
        { findNearby := .ok [{ id := "A1", name := "Cafe Iruna" }],
          genCode := .ok "BP-9f8e7d6c5b4a", createOk := true,
          markOk := true, pushOk := true } 0 "U1" "D1"
        (GenerateCouponCode
          { findNearby := .ok [{ id := "A1", name := "Cafe Iruna" }],
            genCode := .ok "BP-0a1b2c3d4e5f", createOk := true,
            markOk := true, pushOk := true } 0 "U1" "D1" []).2).2
      "D1").length = 2 ∧
    (GenerateCouponCode
      { findNearby := .ok [{ id := "A1", name := "Cafe Iruna" }],
        genCode := .ok "BP-9f8e7d6c5b4a", createOk := true,
        markOk := true, pushOk := true } 0 "U1" "D1"
      (GenerateCouponCode
        { findNearby := .ok [{ id := "A1", name := "Cafe Iruna" }],
          genCode := .ok "BP-0a1b2c3d4e5f", createOk := true,
          markOk := true, pushOk := true } 0 "U1" "D1" []).2).1 =
      .ok "BP-9f8e7d6c5b4a" := by
  exact ⟨rfl, rfl⟩

/-- C2: in `CompensationWorkflow`, when `FindNearestAffiliate` and
`GenerateCouponCode` succeeded and `SendPushNotification` failed, the
workflow invokes `DeleteCoupon` with the issued code and returns the
original push error — regardless of the `DeleteCoupon` outcome, and
never success. -/
theorem CompensationWorkflow_push_failure_compensates
    (o : WorkflowOutcomes) (aid code e : String)
    (hFind : o.findAffiliate = .ok aid)
    (hGen : o.generateCoupon = .ok code)
    (hPush : o.sendPush = .error e) :
    (CompensationWorkflow o).result = .error e ∧
    (CompensationWorkflow o).deletedCoupon = some code := by
  simp [CompensationWorkflow, hFind, hGen, hPush]

/-- Witness for C2 at a concrete execution whose `DeleteCoupon` outcome
is a success, showing the push error is still surfaced. -/
theorem CompensationWorkflow_push_failure_compensates_witness :
    (CompensationWorkflow
      { findAffiliate := .ok "A1", getName := .ok "Cafe Iruna",
        generateCoupon := .ok "BP-0a1b2c3d4e5f",
        sendPush := .error "push service down",
        deleteCoupon := .ok () }).result = .error "push service down" ∧
    (CompensationWorkflow
      { findAffiliate := .ok "A1", getName := .ok "Cafe Iruna",
        generateCoupon := .ok "BP-0a1b2c3d4e5f",
        sendPush := .error "push service down",
        deleteCoupon := .ok () }).deletedCoupon = some "BP-0a1b2c3d4e5f" :=
  CompensationWorkflow_push_failure_compensates _ "A1" "BP-0a1b2c3d4e5f"
    "push service down" rfl rfl rfl

/-- C8: `IssueCompensation` succeeds and appends exactly the created row
whenever the affiliate list is non-empty, code generation succeeds and
the row insert succeeds — for every mark-compensated and push outcome —
and it errors leaving the rows unchanged when the affiliate list is
empty or the insert fails. -/
theorem IssueCompensation_outcomes
    (deps : CompensationDeps) (now : Int) (u d : String)
    (rows : List Compensation) :
    (∀ a rest code, deps.findNearby = .ok (a :: rest) →
      deps.genCode = .ok code → deps.createOk = true →
      (IssueCompensation deps now u d rows).result = .ok
          { userId := u, delayEventId := d, affiliateId := a.id,
            code := code, issuedAt := now, expiresAt := now + 72 * 3600 } ∧
      (IssueCompensation deps now u d rows).rows = rows ++
          [{ userId := u, delayEventId := d, affiliateId := a.id,
             code := code, issuedAt := now, expiresAt := now + 72 * 3600 }]) ∧
    ((deps.findNearby = .ok [] ∨ deps.createOk = false) →
      (∃ e, (IssueCompensation deps now u d rows).result = .error e) ∧
      (IssueCompensation deps now u d rows).rows = rows) := by
  constructor
  · intro a rest code hf hg hc
    simp [IssueCompensation, hf, hg, hc]
  · intro h
    rcases hf : deps.findNearby with e | l
    · simp [IssueCompensation, hf]
    · rcases l with _ | ⟨a, rest⟩
      · simp [IssueCompensation, hf]
      · have hc : deps.createOk = false := by
          rcases h with h | h
          · rw [hf] at h; cases h
          · exact h
        rcases hg : deps.genCode with e | code
        · simp [IssueCompensation, hf, hg]
        · simp [IssueCompensation, hf, hg, hc]

/-- Witness for C8: a successful issuance with a failing push still
creates the row, and an empty affiliate list yields an error and no row. -/
theorem IssueCompensation_outcomes_witness :
    ((IssueCompensation
        { findNearby := .ok [{ id := "A1", name := "Cafe Iruna" }],
          genCode := .ok "BP-0a1b2c3d4e5f", createOk := true,
          markOk := false, pushOk := false } 0 "U1" "D1" []).result = .ok
        { userId := "U1", delayEventId := "D1", affiliateId := "A1",
          code := "BP-0a1b2c3d4e5f", issuedAt := 0,
          expiresAt := 0 + 72 * 3600 } ∧
      (IssueCompensation
        { findNearby := .ok [{ id := "A1", name := "Cafe Iruna" }],
          genCode := .ok "BP-0a1b2c3d4e5f", createOk := true,
          markOk := false, pushOk := false } 0 "U1" "D1" []).rows = [] ++
        [{ userId := "U1", delayEventId := "D1", affiliateId := "A1",
           code := "BP-0a1b2c3d4e5f", issuedAt := 0,
           expiresAt := 0 + 72 * 3600 }]) ∧
    ((∃ e, (IssueCompensation
        { findNearby := .ok [], genCode := .ok "BP-0a1b2c3d4e5f",
          createOk := true, markOk := true, pushOk := true }
        0 "U1" "D1" []).result = .error e) ∧
      (IssueCompensation
        { findNearby := .ok [], genCode := .ok "BP-0a1b2c3d4e5f",
          createOk := true, markOk := true, pushOk := true }
        0 "U1" "D1" []).rows = []) :=
  ⟨(IssueCompensation_outcomes _ 0 "U1" "D1" []).1
      { id := "A1", name := "Cafe Iruna" } [] "BP-0a1b2c3d4e5f" rfl rfl rfl,
   (IssueCompensation_outcomes _ 0 "U1" "D1" []).2 (Or.inl rfl)⟩

/-- Characterization of the messages `pollTripUpdates` publishes: one
message per stop-time update of a non-nil trip update whose computed
delay exceeds 180 seconds, on the constant delay-detection subject. -/
theorem mem_pollTripUpdates (slug : String) (entities : List FeedEntity)
    (p : PublishedMsg) :
    p ∈ pollTripUpdates slug entities ↔
      ∃ ent ∈ entities, ∃ tu, ent.tripUpdate = some tu ∧
        ∃ stu ∈ tu.stopTimeUpdates,
          180 < stopDelay (tu.delay.getD 0) stu ∧
          p = { subject := "transit.delays.detected",
                msg := { agency := slug, tripId := tu.tripId,
                         stopId := stu.stopId,
                         delaySec := stopDelay (tu.delay.getD 0) stu,
                         routeId := tu.routeId } } := by
  simp only [pollTripUpdates, List.mem_flatMap, List.mem_filterMap]
  constructor
  · rintro ⟨tu, ⟨ent, hent, htu⟩, stu, hstu, hif⟩
    by_cases h : 180 < stopDelay (tu.delay.getD 0) stu
    · simp only [h, if_pos] at hif
      exact ⟨ent, hent, tu, htu, stu, hstu, h, (Option.some.inj hif).symm⟩
    · simp [h] at hif
  · rintro ⟨ent, hent, tu, htu, stu, hstu, h, rfl⟩
    exact ⟨tu, ⟨ent, hent, htu⟩, stu, hstu, by simp [h]⟩

/-- C3: the per-stop delay consults the arrival delay when set, else the
departure delay when set, else the trip-level delay; and the poller
publishes to `transit.delays.detected` exactly one message per stop
whose delay strictly exceeds 180 seconds, carrying
`{agency, trip_id, stop_id, delay_sec, route_id}` — so every published
message has `delay_sec > 180`. -/
theorem pollTripUpdates_delay_detection (slug : String)
    (entities : List FeedEntity) :
    (∀ (o : Int) (stu : StopTimeUpdate) (d : Int),
        stu.arrival.bind (fun e => e.delay) = some d →
        stopDelay o stu = d) ∧
    (∀ (o : Int) (stu : StopTimeUpdate) (d : Int),
        stu.arrival.bind (fun e => e.delay) = none →
        stu.departure.bind (fun e => e.delay) = some d →
        stopDelay o stu = d) ∧
    (∀ (o : Int) (stu : StopTimeUpdate),
        stu.arrival.bind (fun e => e.delay) = none →
        stu.departure.bind (fun e => e.delay) = none →
        stopDelay o stu = o) ∧
    (∀ p ∈ pollTripUpdates slug entities,
        p.subject = "transit.delays.detected" ∧ 180 < p.msg.delaySec) ∧
    (∀ p : PublishedMsg, p ∈ pollTripUpdates slug entities ↔
      ∃ ent ∈ entities, ∃ tu, ent.tripUpdate = some tu ∧
        ∃ stu ∈ tu.stopTimeUpdates,
          180 < stopDelay (tu.delay.getD 0) stu ∧
          p = { subject := "transit.delays.detected",
                msg := { agency := slug, tripId := tu.tripId,
                         stopId := stu.stopId,
                         delaySec := stopDelay (tu.delay.getD 0) stu,
                         routeId := tu.routeId } }) := by
  refine ⟨?_, ?_, ?_, ?_, mem_pollTripUpdates slug entities⟩
  · intro o stu d h
    simp [stopDelay, h]
  · intro o stu d ha hd
    simp [stopDelay, ha, hd]
  · intro o stu ha hd
    simp [stopDelay, ha, hd]
  · intro p hp
    rcases (mem_pollTripUpdates slug entities p).1 hp with
      ⟨ent, _, tu, _, stu, _, h, rfl⟩
    exact ⟨rfl, h⟩

/-- Concrete trip update used by the delay-detection witnesses. -/
def sampleStopTimeUpdate : StopTimeUpdate :=
  { stopId := "S2", arrival := some { delay := some 240 }, departure := none }

/-- Concrete feed entity carrying one significant delay. -/
def sampleEntity : FeedEntity :=
  { tripUpdate := some { tripId := "T1", routeId := "R1", delay := none,
                         stopTimeUpdates := [sampleStopTimeUpdate] } }

/-- Concrete message published for `sampleEntity`. -/
def sampleMsg : PublishedMsg :=
  { subject := "transit.delays.detected",
    msg := { agency := "toy", tripId := "T1", stopId := "S2",
             delaySec := 240, routeId := "R1" } }

/-- Witness for C3: an arrival delay of 240 on the sample update is the
per-stop delay, and the concrete published message carries it on the
delay-detection subject. -/
theorem pollTripUpdates_delay_detection_witness :
    stopDelay 0 sampleStopTimeUpdate = 240 ∧
    (sampleMsg.subject = "transit.delays.detected" ∧
      180 < sampleMsg.msg.delaySec) :=
  ⟨(pollTripUpdates_delay_detection "toy" []).1 0 sampleStopTimeUpdate 240 rfl,
   (pollTripUpdates_delay_detection "toy" [sampleEntity]).2.2.2.1 sampleMsg
     (by rw [show pollTripUpdates "toy" [sampleEntity] = [sampleMsg] from rfl]
         exact List.mem_cons_self _ _)⟩

/-- C10: every significant-delay publish uses the constant subject
`transit.delays.detected`, and none of the three stream subject filters
configured by `NewPublisher` matches that subject — in particular the
delays work-queue filter `transit.delay.>` does not. -/
theorem delays_subject_outside_streams (slug : String)
    (entities : List FeedEntity) :
    (∀ p ∈ pollTripUpdates slug entities,
        p.subject = "transit.delays.detected") ∧
    (∀ pat ∈ streamSubjectPatterns,
        subjectMatches pat "transit.delays.detected" = false) ∧
    subjectMatches "transit.delay.>" "transit.delays.detected" = false := by
  refine ⟨?_, ?_, by decide⟩
  · intro p hp
    rcases (mem_pollTripUpdates slug entities p).1 hp with
      ⟨ent, _, tu, _, stu, _, _, rfl⟩
    rfl
  · intro pat hpat
    simp only [streamSubjectPatterns, List.mem_cons,
      List.not_mem_nil, or_false] at hpat
    rcases hpat with rfl | rfl | rfl <;> decide

/-- Witness for C10 at the sample entity and the delays stream filter. -/
theorem delays_subject_outside_streams_witness :
    sampleMsg.subject = "transit.delays.detected" ∧
    subjectMatches "transit.delay.>" "transit.delays.detected" = false :=
  ⟨(delays_subject_outside_streams "toy" [sampleEntity]).1 sampleMsg
     (by rw [show pollTripUpdates "toy" [sampleEntity] = [sampleMsg] from rfl]
         exact List.mem_cons_self _ _),
   (delays_subject_outside_streams "toy" []).2.1 "transit.delay.>"
     (by simp [streamSubjectPatterns])⟩

/-- Facts every admissible ORDER BY/LIMIT result satisfies: sorted by
the key, at most `lim` rows, sound for the candidate set, and complete
whenever the limit was not reached. -/
theorem QueryResult_facts {α : Type} (key : α → Int) (cands : List α)
    (lim : Nat) (out : List α) (h : QueryResult key cands lim out) :
    List.Sorted (fun a b => key a ≤ key b) out ∧
    out.length ≤ lim ∧
    (∀ r ∈ out, r ∈ cands) ∧
    (out.length < lim → ∀ r ∈ cands, r ∈ out) := by
  obtain ⟨full, hperm, hsort, rfl⟩ := h
  refine ⟨hsort.sublist (List.take_sublist lim full), ?_, ?_, ?_⟩
  · rw [List.length_take]
    exact min_le_left _ _
  · intro r hr
    exact hperm.subset (List.mem_of_mem_take hr)
  · intro hlt r hr
    have hfl : full.length < lim := by
      rw [List.length_take] at hlt
      rcases Nat.le_total lim full.length with hle | hle
      · rw [Nat.min_eq_left hle] at hlt
        exact absurd hlt (lt_irrefl _)
      · rwa [Nat.min_eq_right hle] at hlt
    rw [List.take_of_length_le (Nat.le_of_lt hfl)]
    exact hperm.mem_iff.2 hr

/-- Every Phase-2 candidate row satisfies the transfer window and the
different-routes condition of the SQL WHERE clause. -/
theorem mem_transferCandidates {db : ScheduleDB} {f t : String} {tod : Int}
    {r : TransferRow} (h : r ∈ transferCandidates db f t tod) :
    r.arr1 + 120 ≤ r.dep2 ∧ r.dep2 ≤ r.arr1 + 1800 ∧ r.route1 ≠ r.route2 := by
  simp only [transferCandidates, List.mem_flatMap, List.mem_map,
    List.mem_filter, Bool.and_eq_true, beq_iff_eq, decide_eq_true_eq,
    bne_iff_ne, ne_eq] at h
  obtain ⟨l1, hl1, l2, ⟨hl2, ⟨hx, h120⟩, h1800⟩, t1, ht1, t2,
    ⟨⟨ht2, hid⟩, hne⟩, rfl⟩ := h
  exact ⟨h120, h1800, hne⟩

/-- C4: in every admissible `FindJourneys` output, every journey with
`transfers = 1` has exactly two legs whose transfer wait
`leg2.departure - leg1.arrival` lies in `[2 min, 30 min]`, and whose
routes differ. -/
theorem FindJourneys_transfer_window (db : ScheduleDB)
    (fromStopId toStopId : String) (tod today maxTransfers limit : Int)
    (out : List Journey)
    (h : FindJourneysRel db fromStopId toStopId tod today maxTransfers
      limit out)
    (j : Journey) (hj : j ∈ out) (hx : j.transfers = 1) :
    ∃ l1 l2, j.legs = [l1, l2] ∧ 120 ≤ l2.dep - l1.arr ∧
      l2.dep - l1.arr ≤ 1800 ∧ l1.routeId ≠ l2.routeId ∧
      j.transfers = 1 := by
  obtain ⟨directRows, h1, h2⟩ := h
  split at h2
  · obtain ⟨xferRows, hx2, rfl⟩ := h2
    rcases List.mem_append.1 hj with hd | hxm
    · obtain ⟨r, _, rfl⟩ := List.mem_map.1 hd
      exact absurd hx (by simp [mkDirectJourney])
    · obtain ⟨r, hr, rfl⟩ := List.mem_map.1 hxm
      have hrc : r ∈ transferCandidates db fromStopId toStopId tod := by
        obtain ⟨full, hperm, hsort, rfl⟩ := hx2
        exact hperm.subset (List.mem_of_mem_take hr)
      obtain ⟨h120, h1800, hne⟩ := mem_transferCandidates hrc
      refine ⟨_, _, rfl, ?_, ?_, ?_, rfl⟩
      · simp only [mkTransferJourney]
        omega
      · simp only [mkTransferJourney]
        omega
      · simpa [mkTransferJourney] using hne
  · rw [h2] at hj
    obtain ⟨r, _, rfl⟩ := List.mem_map.1 hj
    exact absurd hx (by simp [mkDirectJourney])

/-- Concrete schedule with two one-transfer itineraries of equal total
elapsed time (1000 s each) and no direct trip: `T1A`/`T2A` connect at
`X` around 600-720 s, `T1B`/`T2B` connect at `X` around 2500-2620 s. -/
def transferDB : ScheduleDB :=
  { stopTimes :=
      [ { tripId := "T1A", stopId := "F", arrivalTime := 0,
          departureTime := 0, stopSeq := 1 },
        { tripId := "T1A", stopId := "X", arrivalTime := 600,
          departureTime := 600, stopSeq := 2 },
        { tripId := "T1B", stopId := "F", arrivalTime := 2000,
          departureTime := 2000, stopSeq := 1 },
        { tripId := "T1B", stopId := "X", arrivalTime := 2500,
          departureTime := 2500, stopSeq := 2 },
        { tripId := "T2A", stopId := "X", arrivalTime := 720,
          departureTime := 720, stopSeq := 1 },
        { tripId := "T2A", stopId := "D", arrivalTime := 1000,
          departureTime := 1000, stopSeq := 2 },
        { tripId := "T2B", stopId := "X", arrivalTime := 2620,
          departureTime := 2620, stopSeq := 1 },
        { tripId := "T2B", stopId := "D", arrivalTime := 3000,
          departureTime := 3000, stopSeq := 2 } ],
    trips := [ { id := "T1A", routeId := "R1" },
               { id := "T1B", routeId := "R2" },
               { id := "T2A", routeId := "R3" },
               { id := "T2B", routeId := "R4" } ] }

/-- First transfer candidate of `transferDB` (elapsed 1000, departs 0). -/
def pairA : TransferRow :=
  { dep1 := 0, arr1 := 600, dep2 := 720, arr2 := 1000, fromStop := "F",
    xferStop := "X", toStop := "D", route1 := "R1", route2 := "R3" }

/-- Second transfer candidate of `transferDB` (elapsed 1000, departs 2000). -/
def pairB : TransferRow :=
  { dep1 := 2000, arr1 := 2500, dep2 := 2620, arr2 := 3000, fromStop := "F",
    xferStop := "X", toStop := "D", route1 := "R2", route2 := "R4" }

/-- An admissible `FindJourneys` run on `transferDB`: no direct
journeys, the two transfer candidates in generation order. -/
theorem FindJourneysRel_transferDB :
    FindJourneysRel transferDB "F" "D" 0 0 1 5
      [mkTransferJourney 0 pairA, mkTransferJourney 0 pairB] := by
  refine ⟨[], ⟨[], ?_, List.sorted_nil, rfl⟩, ?_⟩
  · rw [show directCandidates transferDB "F" "D" 0 = [] from rfl]
  · rw [if_pos (by constructor <;> decide)]
    refine ⟨[pairA, pairB], ⟨[pairA, pairB], ?_, ?_, rfl⟩, rfl⟩
    · rw [show transferCandidates transferDB "F" "D" 0 = [pairA, pairB]
        from rfl]
    · simp [List.sorted_cons, pairA, pairB]

/-- Witness for C4 at the first transfer journey of the `transferDB` run. -/
theorem FindJourneys_transfer_window_witness :
    ∃ l1 l2, (mkTransferJourney 0 pairA).legs = [l1, l2] ∧
      120 ≤ l2.dep - l1.arr ∧ l2.dep - l1.arr ≤ 1800 ∧
      l1.routeId ≠ l2.routeId ∧ (mkTransferJourney 0 pairA).transfers = 1 :=
  FindJourneys_transfer_window transferDB "F" "D" 0 0 1 5 _
    FindJourneysRel_transferDB (mkTransferJourney 0 pairA)
    (List.mem_cons_self _ _) rfl

/-- C5: Phase 1 returns exactly the journeys arising from trips serving
both stops with `from.stop_sequence < to.stop_sequence` and
`from.departure_offset >= tod` — sound and, when the limit is not
reached, complete — ordered by departure offset ascending and truncated
to the limit; each journey has `transfers = 0`,
`duration = arrival_offset - departure_offset`, and wall-clocks
reconstructed as `today_midnight + offset`. -/
theorem FindJourneys_direct_phase (db : ScheduleDB)
    (fromStopId toStopId : String) (tod today : Int) (lim : Nat)
    (rows : List DirectRow)
    (h : phase1Rel db fromStopId toStopId tod lim rows) :
    (∀ r : DirectRow, r ∈ directCandidates db fromStopId toStopId tod ↔
      ∃ stf ∈ db.stopTimes, ∃ stt ∈ db.stopTimes, ∃ tr ∈ db.trips,
        stf.tripId = stt.tripId ∧ tr.id = stf.tripId ∧
        stf.stopId = fromStopId ∧ stt.stopId = toStopId ∧
        stf.stopSeq < stt.stopSeq ∧ tod ≤ stf.departureTime ∧
        r = { dep := stf.departureTime, arr := stt.arrivalTime,
              tripId := tr.id, routeId := tr.routeId,
              fromStop := stf.stopId, toStop := stt.stopId }) ∧
    List.Sorted (fun a b : DirectRow => a.dep ≤ b.dep) rows ∧
    rows.length ≤ lim ∧
    (∀ r ∈ rows, r ∈ directCandidates db fromStopId toStopId tod) ∧
    (rows.length < lim →
      ∀ r ∈ directCandidates db fromStopId toStopId tod, r ∈ rows) ∧
    (∀ r : DirectRow, mkDirectJourney today r =
      { legs := [{ routeId := r.routeId, fromStop := r.fromStop,
                   toStop := r.toStop, dep := today + r.dep,
                   arr := today + r.arr }],
        duration := r.arr - r.dep, departureTime := today + r.dep,
        arrivalTime := today + r.arr, transfers := 0 }) := by
  have h' : QueryResult (fun r : DirectRow => r.dep)
      (directCandidates db fromStopId toStopId tod) lim rows := h
  obtain ⟨hsort, hlen, hsound, hcomplete⟩ := QueryResult_facts
    (fun r => r.dep) (directCandidates db fromStopId toStopId tod) lim rows h'
  refine ⟨?_, hsort, hlen, hsound, hcomplete, fun r => rfl⟩
  intro r
  simp only [directCandidates, List.mem_flatMap, List.mem_map,
    List.mem_filter, Bool.and_eq_true, beq_iff_eq, decide_eq_true_eq]
  constructor
  · rintro ⟨stf, hstf, stt, ⟨hstt, ⟨⟨⟨htrip, hfrom⟩, hto⟩, hlt⟩, htod⟩,
      tr, ⟨htr, hid⟩, rfl⟩
    exact ⟨stf, hstf, stt, hstt, tr, htr, htrip, hid, hfrom, hto, hlt,
      htod, rfl⟩
  · rintro ⟨stf, hstf, stt, hstt, tr, htr, htrip, hid, hfrom, hto, hlt,
      htod, rfl⟩
    exact ⟨stf, hstf, stt, ⟨hstt, ⟨⟨⟨htrip, hfrom⟩, hto⟩, hlt⟩, htod⟩,
      tr, ⟨htr, hid⟩, rfl⟩

/-- Concrete schedule with one direct trip `T1` from `S1` (dep 28800)
to `S2` (arr 29100). -/
def directDB : ScheduleDB :=
  { stopTimes :=
      [ { tripId := "T1", stopId := "S1", arrivalTime := 28800,
          departureTime := 28800, stopSeq := 1 },
        { tripId := "T1", stopId := "S2", arrivalTime := 29100,
          departureTime := 29100, stopSeq := 2 } ],
    trips := [ { id := "T1", routeId := "R1" } ] }

/-- The single Phase-1 candidate of `directDB`. -/
def directRow0 : DirectRow :=
  { dep := 28800, arr := 29100, tripId := "T1", routeId := "R1",
    fromStop := "S1", toStop := "S2" }

/-- Witness for C5 at the `directDB` run departing after 27000 s. -/
theorem FindJourneys_direct_phase_witness :
    List.Sorted (fun a b : DirectRow => a.dep ≤ b.dep) [directRow0] ∧
    [directRow0].length ≤ 5 ∧
    (mkDirectJourney 1700000000 directRow0).departureTime =
      1700000000 + directRow0.dep := by
  have h := FindJourneys_direct_phase directDB "S1" "S2" 27000 1700000000 5
    [directRow0]
    ⟨[directRow0],
      by rw [show directCandidates directDB "S1" "S2" 27000 = [directRow0]
        from rfl],
      by simp [List.sorted_cons], rfl⟩
  refine ⟨h.2.1, h.2.2.1, ?_⟩
  rw [h.2.2.2.2.2 directRow0]

/-- C6 counterexample: a requested limit of 21 — above the cap of 20 —
is reset to the default 5 by `FindJourneys`, not clamped to the cap 20
as claimed. -/
theorem effectiveLimit_above_cap_counterexample :
    effectiveLimit 21 = 5 ∧ ¬ effectiveLimit 21 = 20 := by
  decide

/-- C6 amended: `FindJourneys` resets a requested limit that is ≤ 0 or
above 20 to the default 5, keeps limits in 1..20 unchanged, and the
`PlanJourney` use case always invokes the repository with the fixed
limit 10. -/
theorem limit_clamping (l : Int) (fromStopId toStopId : String)
    (mt : Int) :
    (l ≤ 0 → effectiveLimit l = 5) ∧
    (20 < l → effectiveLimit l = 5) ∧
    (0 < l → l ≤ 20 → effectiveLimit l = l) ∧
    (fromStopId ≠ "" → toStopId ≠ "" → fromStopId ≠ toStopId →
      ∃ m, PlanJourneyArgs fromStopId toStopId mt = .ok (m, 10)) := by
  refine ⟨?_, ?_, ?_, ?_⟩
  · intro h
    simp [effectiveLimit, h]
  · intro h
    simp [effectiveLimit, h]
  · intro h1 h2
    have : ¬ l ≤ 0 := not_le.2 h1
    have : ¬ 20 < l := not_lt.2 h2
    simp [effectiveLimit, *]
  · intro h1 h2 h3
    simp only [PlanJourneyArgs]
    rw [if_neg (by simp [h1, h2]), if_neg h3]
    exact ⟨_, rfl⟩

/-- Witness for C6 at limits -3, 21 and 10, and a valid planner call. -/
theorem limit_clamping_witness :
    effectiveLimit (-3) = 5 ∧ effectiveLimit 21 = 5 ∧
    effectiveLimit 10 = 10 ∧
    ∃ m, PlanJourneyArgs "S1" "S2" 1 = .ok (m, 10) :=
  ⟨(limit_clamping (-3) "S1" "S2" 1).1 (by decide),
   (limit_clamping 21 "S1" "S2" 1).2.1 (by decide),
   (limit_clamping 10 "S1" "S2" 1).2.2.1 (by decide) (by decide),
   (limit_clamping 10 "S1" "S2" 1).2.2.2 (by decide) (by decide)
     (by decide)⟩

/-- Claimed Phase-2 ordering: total elapsed time ascending, ties broken
by the first leg departure offset ascending. -/
def lexElapsedDep1 (a b : TransferRow) : Prop :=
  a.arr2 - a.dep1 < b.arr2 - b.dep1 ∨
    (a.arr2 - a.dep1 = b.arr2 - b.dep1 ∧ a.dep1 ≤ b.dep1)

/-- C7 counterexample: on `transferDB` the two candidates tie at 1000 s
elapsed, so the output `[pairB, pairA]` — which violates the claimed
departure-offset tie-break, `pairB` departing at 2000 and `pairA` at
0 — is an admissible Phase-2 result: the ORDER BY clause
`l2.arr2 - l1.dep1` has no secondary key. -/
theorem transfer_ordering_counterexample :
    phase2Rel transferDB "F" "D" 0 2 [pairB, pairA] ∧
    ¬ List.Pairwise lexElapsedDep1 [pairB, pairA] := by
  constructor
  · refine ⟨[pairB, pairA], ?_, ?_, rfl⟩
    · rw [show transferCandidates transferDB "F" "D" 0 = [pairA, pairB]
        from rfl]
      exact List.Perm.swap _ _ _
    · simp [List.sorted_cons, pairA, pairB]
  · intro h
    have := (List.pairwise_cons.1 h).1 pairA (List.mem_cons_self _ _)
    rcases this with h1 | ⟨h1, h2⟩
    · simp [pairA, pairB] at h1
    · simp [pairA, pairB] at h2

/-- C7 amended: the transfer part of every admissible `FindJourneys`
output is ordered by total elapsed time `leg2.arrival - leg1.departure`
ascending and truncated to `remaining = limit - |direct|`; no tie-break
among equal elapsed times is imposed. -/
theorem FindJourneys_transfer_ordering (db : ScheduleDB)
    (fromStopId toStopId : String) (tod today maxTransfers limit : Int)
    (out : List Journey)
    (h : FindJourneysRel db fromStopId toStopId tod today maxTransfers
      limit out) :
    ∃ (direct : List DirectRow) (xfer : List TransferRow),
      out = direct.map (mkDirectJourney today) ++
        xfer.map (mkTransferJourney today) ∧
      List.Sorted (fun a b : TransferRow =>
        a.arr2 - a.dep1 ≤ b.arr2 - b.dep1) xfer ∧
      xfer.length ≤ (effectiveLimit limit).toNat - direct.length := by
  obtain ⟨directRows, h1, h2⟩ := h
  split at h2
  · obtain ⟨xferRows, hx, rfl⟩ := h2
    have hx' : QueryResult (fun r : TransferRow => r.arr2 - r.dep1)
        (transferCandidates db fromStopId toStopId tod)
        ((effectiveLimit limit).toNat - directRows.length) xferRows := hx
    obtain ⟨hs, hl, -, -⟩ := QueryResult_facts _ _ _ _ hx'
    exact ⟨directRows, xferRows, rfl, hs, hl⟩
  · exact ⟨directRows, [], by rw [h2]; simp, List.sorted_nil,
      Nat.zero_le _⟩

/-- Witness for C7 (amended) at the `transferDB` run. -/
theorem FindJourneys_transfer_ordering_witness :
    ∃ (direct : List DirectRow) (xfer : List TransferRow),
      [mkTransferJourney 0 pairA, mkTransferJourney 0 pairB] =
        direct.map (mkDirectJourney 0) ++
          xfer.map (mkTransferJourney 0) ∧
      List.Sorted (fun a b : TransferRow =>
        a.arr2 - a.dep1 ≤ b.arr2 - b.dep1) xfer ∧
      xfer.length ≤ (effectiveLimit 5).toNat - direct.length :=
  FindJourneys_transfer_ordering transferDB "F" "D" 0 0 1 5 _
    FindJourneysRel_transferDB

/-- Stop-times record whose `stop_sequence` field is not a number. -/
def badStopTimeRecord : StopTimeRecord :=
  { tripId := "T1", stopId := "S1", arrivalTime := "08:00:00",
    departureTime := "08:05:00", stopSequence := "abc",
    pickupType := "0", dropOffType := "0" }

/-- C9 counterexample: a record with the unparsable numeric field
`stop_sequence = "abc"` is NOT skipped — `processStopTimes` still queues
its insert, with the discarded-error zero value for the field. -/
theorem stopTimes_unparsable_row_queued :
    processStopTimes [CsvRow.record badStopTimeRecord] =
      [{ tripId := "T1", stopId := "S1", arrival := 28800,
         departure := 29100, stopSeq := 0, pickupType := 0,
         dropOffType := 0 }] ∧
    processStopTimes [CsvRow.record badStopTimeRecord] ≠ [] := by
  refine ⟨rfl, ?_⟩
  rw [show processStopTimes [CsvRow.record badStopTimeRecord] =
    [{ tripId := "T1", stopId := "S1", arrival := 28800,
       departure := 29100, stopSeq := 0, pickupType := 0,
       dropOffType := 0 }] from rfl]
  exact List.cons_ne_nil _ _

/-- C9 amended: a short or malformed record (csv read error) is skipped
and the remaining rows are still processed, but an unparsable numeric
field does not skip the row: the field parses to the zero value and the
insert is still queued.  No row error aborts the table. -/
theorem processStopTimes_row_errors (rows : List CsvRow)
    (r : StopTimeRecord) (cs : List Char) :
    processStopTimes (CsvRow.readError :: rows) = processStopTimes rows ∧
    processStopTimes (CsvRow.record r :: rows) =
      stopTimeInsertOf r :: processStopTimes rows ∧
    (goIntSyntax cs = false → goAtoi cs = 0) ∧
    (goIntSyntax r.stopSequence.data = false →
      (stopTimeInsertOf r).stopSeq = 0) := by
  refine ⟨rfl, rfl, ?_, ?_⟩
  · intro h
    simp [goAtoi, h]
  · intro h
    show goAtoi r.stopSequence.data = 0
    simp [goAtoi, h]

/-- Witness for C9 (amended): a read error contributes nothing, and the
record with `stop_sequence = "abc"` gets `stop_sequence = 0`. -/
theorem processStopTimes_row_errors_witness :
    processStopTimes [CsvRow.readError] = processStopTimes [] ∧
    goAtoi "abc".data = 0 ∧
    (stopTimeInsertOf badStopTimeRecord).stopSeq = 0 :=
  ⟨(processStopTimes_row_errors [] badStopTimeRecord "abc".data).1,
   (processStopTimes_row_errors [] badStopTimeRecord "abc".data).2.2.1
     (by decide),
   (processStopTimes_row_errors [] badStopTimeRecord "abc".data).2.2.2
     (by decide)⟩

end Bilbopass
